import Mathlib

/-!
Verification of the `vijevira/logger` configuration contract.

The repository is JavaScript glue around the winston logging library.  The
definitions below are a shallow embedding of the repository's own code:

* `src/unnamed/part_000` (the main `logger.js`): parsing of the
  `LOGGER_CONFIG` environment variable, transport construction, the
  `createLogger` factory and its pretty formatter (masking, request-id
  brackets).
* `src/index.js` (a variant factory): the `LOG_TRANSPORTS` handling.

JSON values are modelled by the inductive `JSVal` (numbers as integers: every
numeric literal the configuration surfaces of this repository use is
integral).  The result of a JavaScript expression that may be `undefined` is
an `Option JSVal`, with `none` playing the role of `undefined`.  Host
primitives (`JSON.parse`, winston's transport classes, `util.format`,
`util.inspect`) are modelled at their interfaces: `JSON.parse` by its
`Except` outcome, transports by `Sink` descriptors recording the exact
options the code passes, and the formatting helpers by string renderers
whose behaviour is documented at their definitions.
-/

namespace LoggerSpec

/-- JSON values as produced by `JSON.parse` (object field lists are the
deduplicated own properties, in insertion order; numbers are integral). -/
inductive JSVal where
  | null
  | bool (b : Bool)
  | num (n : Int)
  | str (s : String)
  | arr (elems : List JSVal)
  | obj (fields : List (String × JSVal))

/-- The result of a JavaScript expression: `none` is `undefined`. -/
abbrev JSRes := Option JSVal

/-- Runtime errors thrown during module initialisation. -/
inductive JsError where
  | typeError (msg : String)
  | syntaxError (msg : String)
deriving DecidableEq

/-- JavaScript truthiness of a value. -/
def truthy : JSVal → Bool
  | .null => false
  | .bool b => b
  | .num n => n != 0
  | .str s => s != ""
  | .arr _ => true
  | .obj _ => true

/-- Truthiness of an expression result (`undefined` is falsy). -/
def truthyR : JSRes → Bool
  | none => false
  | some v => truthy v

/-- First binding of a key in an object's field list. -/
def lookupField : List (String × JSVal) → String → Option JSVal
  | [], _ => none
  | (k, v) :: rest, key => if k = key then some v else lookupField rest key

/-- Own-property access `v[k]` on a non-nullish value: `undefined` when the
key is absent.  Inherited `Object.prototype` members (`toString`,
`hasOwnProperty`, ...) and the exotic properties of strings and arrays
(`length`, numeric indices) are not modelled; theorems that quantify over a
caller-chosen key therefore restrict it away from those names. -/
def getF : JSVal → String → JSRes
  | .obj fs, k => lookupField fs k
  | _, _ => none

/-- The own members of `Object.prototype`, which shadow `getF`'s
`undefined` result on real JavaScript objects. -/
def objectProtoKeys : List String :=
  ["constructor", "hasOwnProperty", "isPrototypeOf", "propertyIsEnumerable",
   "toLocaleString", "toString", "valueOf", "__proto__", "__defineGetter__",
   "__defineSetter__", "__lookupGetter__", "__lookupSetter__"]

/-- Property access `v.k`: a `TypeError` on `null` (`undefined` cannot occur
as a parsed JSON value), otherwise `getF`. -/
def jsGet (v : JSVal) (k : String) : Except JsError JSRes :=
  match v with
  | .null => .error (.typeError ("Cannot read properties of null (reading " ++ k ++ ")"))
  | v => .ok (getF v k)

/-- Optional chaining `r?.k` on an expression result. -/
def optChain (r : JSRes) (k : String) : JSRes :=
  match r with
  | none => none
  | some .null => none
  | some v => getF v k

/-- `a || b` where `b` is a known (defined) default. -/
def jsOrV (a : JSRes) (b : JSVal) : JSVal :=
  match a with
  | some v => if truthy v then v else b
  | none => b

mutual

/-- Template-literal stringification `${v}` of a value (arrays render their
elements joined by commas, as `Array.prototype.toString` does). -/
def displayJS : JSVal → String
  | .null => "null"
  | .bool true => "true"
  | .bool false => "false"
  | .num n => toString n
  | .str s => s
  | .arr l => String.intercalate "," (displayList l)
  | .obj _ => "[object Object]"

def displayList : List JSVal → List String
  | [] => []
  | v :: vs => displayJS v :: displayList vs

end

/-- Template-literal stringification of an expression result. -/
def displayRes : JSRes → String
  | none => "undefined"
  | some v => displayJS v

/-! ### The masking regex of the pretty formatter

`src/unnamed/part_000` line 90 rewrites the primary message with

  message.replace(/(password|token)\s*[:=]\s*\S+/gi, "$1: ***")

The functions below implement exactly that global replace: at each index the
engine tries the pattern (the alternation, `\s*`, one of `:` `=`, `\s*`, a
maximal nonempty non-whitespace run — no backtracking can arise because the
character classes are disjoint), substitutes `$1: ***` on success and resumes
after the match, else moves one character right. -/

/-- The `\s` class of JavaScript regular expressions. -/
def isJsSpace (c : Char) : Bool :=
  c = ' ' || c = '\t' || c = '\n' || c = '\r' ||
  c.val = 0x0b || c.val = 0x0c || c.val = 0xa0 || c.val = 0x1680 ||
  (0x2000 ≤ c.val && c.val ≤ 0x200a) ||
  c.val = 0x2028 || c.val = 0x2029 || c.val = 0x202f || c.val = 0x205f ||
  c.val = 0x3000 || c.val = 0xfeff

/-- Case-insensitive match of the alternation `(password|token)` at the head
of the input; returns the matched characters (original casing) and the
remaining input. -/
def matchKeyword (cs : List Char) : Option (List Char × List Char) :=
  if (cs.take 8).map Char.toLower = "password".data then
    some (cs.take 8, cs.drop 8)
  else if (cs.take 5).map Char.toLower = "token".data then
    some (cs.take 5, cs.drop 5)
  else none

/-- Match of `\s*[:=]\s*\S+` at the head of the input; returns the input
remaining after the (greedy) match. -/
def matchTail (cs : List Char) : Option (List Char) :=
  match cs.dropWhile isJsSpace with
  | [] => none
  | d :: cs2 =>
    if d = ':' || d = '=' then
      let cs3 := cs2.dropWhile isJsSpace
      match cs3.takeWhile (fun c => !isJsSpace c) with
      | [] => none
      | _ :: _ => some (cs3.dropWhile (fun c => !isJsSpace c))
    else none

/-- Match of the full pattern at the head of the input: the keyword kept for
`$1` and the input remaining after the match. -/
def tryMask (cs : List Char) : Option (List Char × List Char) :=
  match matchKeyword cs with
  | some (kw, rest) => (matchTail rest).map fun r => (kw, r)
  | none => none

/-- Fuel-indexed scan of the global replace (structural in the fuel so that
it evaluates by kernel reduction); `maskScan` supplies fuel `cs.length`,
which suffices because every step consumes at least one character. -/
def maskScanF : Nat → List Char → List Char
  | 0, cs => cs
  | fuel + 1, cs =>
    match tryMask cs with
    | some (kw, rest) => kw ++ ": ***".data ++ maskScanF fuel rest
    | none =>
      match cs with
      | [] => []
      | c :: cs2 => c :: maskScanF fuel cs2

/-- The global replace over a character list. -/
def maskScan (cs : List Char) : List Char :=
  maskScanF cs.length cs

/-- `message.replace(/(password|token)\s*[:=]\s*\S+/gi, "$1: ***")`. -/
def maskMessage (s : String) : String :=
  ⟨maskScan s.data⟩

/-! ### The pretty formatter and the structured (json) encoder -/

/-- A call into one of the logging operations of a handle, as the winston
info object hands it to the configured format: the severity, the primary
message, the caller-supplied metadata fields merged into the info object, and
the extra positional arguments (the `Symbol.for("splat")` entry). -/
structure LogCall where
  level : String
  message : JSVal
  meta : List (String × JSVal)
  splat : List JSVal

/-- Models `util.inspect(v, { depth: null })`: a structural rendering of the
value (quoting of nested strings omitted — no claim depends on it). -/
def inspectJS (v : JSVal) : String :=
  displayJS v

/-- Models Node's `util.format` for a primary argument that contains no `%`
format specifiers (none of the verified properties exercises specifier
substitution): arguments are rendered and joined by single spaces, a
non-string primary argument being inspected. -/
def utilFormat (first : JSVal) (rest : List String) : String :=
  let head := match first with
    | .str s => s
    | v => inspectJS v
  String.intercalate " " (head :: rest)

/-- Models `level.toUpperCase()` (ASCII case mapping, which covers every
winston severity name). -/
def toUpperJS (s : String) : String :=
  ⟨s.data.map Char.toUpper⟩

/-- The body of `winston.format.printf` inside `createLogger`
(`src/unnamed/part_000` lines 84-98): reads the active AsyncLocalStorage
store (`none` when no request context is active), masks a textual primary
message, and renders the single pretty line.  `timestamp` is the field the
preceding `winston.format.timestamp()` added to the info object. -/
def emitPretty (label : String) (store : JSRes) (timestamp : String)
    (call : LogCall) : String :=
  let requestId := optChain store "requestId"
  let maskedMessage : JSVal :=
    match call.message with
    | .str s => .str (maskMessage s)
    | v => v
  let requestIdPart := if truthyR requestId then "[" ++ displayRes requestId ++ "] " else ""
  timestamp ++ " [" ++ toUpperJS call.level ++ "] " ++ requestIdPart ++
    "[" ++ label ++ "] - " ++ utilFormat maskedMessage (call.splat.map inspectJS)

/-- Models `winston.format.json()`: the structured encoder serialises the
enumerable fields of the info object it receives (symbol keys such as the
splat are excluded).  The repository's json pipeline contains no
`winston.format.timestamp()` and never reads the AsyncLocalStorage store, so
the info object holds exactly the severity, the message and the
caller-supplied metadata. -/
def emitJson (call : LogCall) : List (String × JSVal) :=
  ("level", .str call.level) :: ("message", call.message) :: call.meta

/-! ### Transport construction (`src/unnamed/part_000` lines 24-75)

A `Sink` records the constructor the code invokes and the exact option
values it passes.  Construction order is tracked by a running counter: each
`new` receives the next identifier, so two sinks with distinct identifiers
are distinct live objects (distinct file handles when they name a file). -/

/-- A constructed winston transport with the options the code passes
(`none` for an option the code leaves undefined). -/
inductive Sink where
  | console (level : JSVal)
  | dailyRotateFile (filename : String) (datePattern zippedArchive maxSize maxFiles : JSVal)
      (level : JSRes)
  | file (filename : String) (level : JSRes) (maxsize maxFiles : Option JSVal)
  | http (host port path : JSRes) (ssl level : JSVal)

/-- `path.join(".", "logs", name)`: Node's `path.join` normalises away the
leading `./` and throws a `TypeError` unless every segment is a string. -/
def pathJoinLogs (name : JSVal) : Except JsError String :=
  match name with
  | .str s => .ok ("logs/" ++ s)
  | _ => .error (.typeError "Path must be a string. Received a non-string value")

/-- Accumulator of the transport-building loop: the construction counter,
the sinks built so far (with their construction identifiers) and the
warnings printed so far. -/
structure BuildAcc where
  nextId : Nat
  sinks : List (Nat × Sink)
  warnings : List String

/-- `new` on a transport constructor: allocates the next identifier. -/
def allocSink (acc : BuildAcc) (s : Sink) : BuildAcc :=
  { acc with nextId := acc.nextId + 1, sinks := acc.sinks ++ [(acc.nextId, s)] }

/-- The warning the `default` arm prints. -/
def unknownWarning (ty : JSRes) : String :=
  "Unknown transport type: " ++ displayRes ty ++ ". Skipping."

/-- One iteration of the `for (const transport of ...)` loop: the
destructuring `const { type, options = {} } = transport` (a `TypeError` on
`null`), then the `switch` on `type`. -/
def buildStep (defaultLevel : JSVal) (acc : BuildAcc) (transport : JSVal) :
    Except JsError BuildAcc :=
  match transport with
  | .null => .error (.typeError "Cannot destructure property type of null as it is null.")
  | t =>
    let ty := getF t "type"
    let options := match getF t "options" with
      | none => JSVal.obj []
      | some v => v
    match ty with
    | some (.str s) =>
      if s = "daily" then do
        let filename ← jsGet options "filename"
        let datePattern ← jsGet options "datePattern"
        let zippedArchive ← jsGet options "zippedArchive"
        let maxSize ← jsGet options "maxSize"
        let maxFiles ← jsGet options "maxFiles"
        let level ← jsGet options "level"
        pure (allocSink acc (.dailyRotateFile
          ("logs/" ++ displayJS (jsOrV filename (.str "app")) ++ "-%DATE%.log")
          (jsOrV datePattern (.str "YYYY-MM-DD"))
          (jsOrV zippedArchive (.bool false))
          (jsOrV maxSize (.str "20m"))
          (jsOrV maxFiles (.str "30d"))
          (some (jsOrV level defaultLevel))))
      else if s = "static" then do
        let filename ← jsGet options "filename"
        let fn ← pathJoinLogs (jsOrV filename (.str "static.log"))
        let level ← jsGet options "level"
        let maxSize ← jsGet options "maxSize"
        let maxFiles ← jsGet options "maxFiles"
        pure (allocSink acc (.file fn (some (jsOrV level defaultLevel))
          (some (jsOrV maxSize (.num (5 * 1024 * 1024))))
          (some (jsOrV maxFiles (.num 5)))))
      else if s = "file" then do
        let filename ← jsGet options "filename"
        let fn ← pathJoinLogs (jsOrV filename (.str "log.log"))
        let level ← jsGet options "level"
        pure (allocSink acc (.file fn (some (jsOrV level defaultLevel)) none none))
      else if s = "http" then do
        let host ← jsGet options "host"
        let port ← jsGet options "port"
        let path ← jsGet options "path"
        let ssl ← jsGet options "ssl"
        let level ← jsGet options "level"
        pure (allocSink acc (.http host port path (jsOrV ssl (.bool false))
          (jsOrV level defaultLevel)))
      else
        pure { acc with warnings := acc.warnings ++ [unknownWarning ty] }
    | _ => pure { acc with warnings := acc.warnings ++ [unknownWarning ty] }

/-- Values a `for (... of v)` statement accepts: arrays yield their
elements, strings their characters; every other value throws. -/
def iterateJS : JSVal → Except JsError (List JSVal)
  | .arr l => .ok l
  | .str s => .ok (s.data.map fun c => .str ⟨[c]⟩)
  | v => .error (.typeError (displayJS v ++ " is not iterable"))

/-- The whole transport-building loop over the value of
`loggerConfig.transports || []`, starting at construction counter `startId`. -/
def buildTransports (defaultLevel : JSVal) (startId : Nat) (transportsVal : JSVal) :
    Except JsError BuildAcc := do
  let items ← iterateJS transportsVal
  items.foldlM (buildStep defaultLevel) ⟨startId, [], []⟩

/-! ### Module initialisation (`src/unnamed/part_000` lines 11-26)

`JSON.parse` of the `LOGGER_CONFIG` environment variable is a host
primitive; it enters the model through its outcome, an
`Except String JSVal` (with an absent variable the code parses the literal
`'{}'`, whose outcome is `.ok (.obj [])`). -/

/-- Lines 11-17: the `try`/`catch` around `JSON.parse`, falling back to `{}`
with a `console.error` warning. -/
def loadLoggerConfig (parsed : Except String JSVal) : JSVal × Bool :=
  match parsed with
  | .ok v => (v, false)
  | .error _ => (JSVal.obj [], true)

/-- Line 19: `const defaultLevel = loggerConfig.levels?.default || "info"`. -/
def defaultLevelOf (cfg : JSVal) : Except JsError JSVal := do
  let levels ← jsGet cfg "levels"
  pure (jsOrV (optChain levels "default") (.str "info"))

/-- The two format modes. -/
inductive FormatMode where
  | json
  | pretty
deriving DecidableEq

/-- Line 20: `const globalFormat = loggerConfig.format === "json" ? "json" : "pretty"`. -/
def globalFormatOf (cfg : JSVal) : Except JsError FormatMode := do
  let f ← jsGet cfg "format"
  pure (match f with
    | some (.str s) => if s = "json" then FormatMode.json else FormatMode.pretty
    | _ => FormatMode.pretty)

/-- Line 21: `const levelOverrides = loggerConfig.levels || {}`. -/
def levelOverridesOf (cfg : JSVal) : Except JsError JSVal := do
  let levels ← jsGet cfg "levels"
  pure (jsOrV levels (.obj []))

/-- The module-level state after the top of `src/unnamed/part_000` ran. -/
structure ModuleState where
  defaultLevel : JSVal
  globalFormat : FormatMode
  levelOverrides : JSVal
  configuredTransports : List (Nat × Sink)
  nextId : Nat
  warnings : List String
  configWarned : Bool

/-- Lines 11-75 of `src/unnamed/part_000`: config loading (with the stderr
warning on a parse failure), the three derived constants, and the
transport-building loop.  Any `TypeError` thrown on the way propagates (the
module has no surrounding handler). -/
def initModule (parsed : Except String JSVal) : Except JsError ModuleState := do
  let (cfg, warned) := loadLoggerConfig parsed
  let defaultLevel ← defaultLevelOf cfg
  let globalFormat ← globalFormatOf cfg
  let levelOverrides ← levelOverridesOf cfg
  let transports ← jsGet cfg "transports"
  let acc ← buildTransports defaultLevel 0 (jsOrV transports (.arr []))
  pure { defaultLevel, globalFormat, levelOverrides,
         configuredTransports := acc.sinks, nextId := acc.nextId,
         warnings := acc.warnings, configWarned := warned }

/-! ### The factory (`src/unnamed/part_000` lines 79-115) -/

/-- The winston logger a `createLogger` call returns: its resolved level,
format mode, label, the transports and exception handlers registered on it
(with the construction identifiers of the sinks), and the `exitOnError`
policy. -/
structure LoggerHandle where
  level : JSVal
  formatMode : FormatMode
  label : String
  transports : List (Nat × Sink)
  exceptionHandlers : List (Nat × Sink)
  exitOnError : Bool

/-- `createLogger(fileName = "app")`: resolves the effective level, then
constructs a fresh `Console` transport and a fresh exception-handling `File`
transport (two `new` expressions per call, in source order) and attaches the
shared `configuredTransports` by reference.  `nid` is the process-wide
construction counter at call time; the first component of the result is the
counter afterwards. -/
def createLogger (m : ModuleState) (nid : Nat) (fileName : String := "app") :
    Nat × LoggerHandle :=
  let effectiveLevel := jsOrV (getF m.levelOverrides fileName) m.defaultLevel
  (nid + 2,
   { level := effectiveLevel
     formatMode := m.globalFormat
     label := fileName
     transports := (nid, Sink.console effectiveLevel) :: m.configuredTransports
     exceptionHandlers := [(nid + 1, Sink.file "logs/exceptions.log" none none none)]
     exitOnError := false })

/-- What one log call through a handle emits: the pretty pipeline renders a
line, the json pipeline hands the info object to the structured encoder. -/
inductive Emitted where
  | text (line : String)
  | structured (fields : List (String × JSVal))

/-- One log emission through a handle: dispatch on the format mode chosen at
process start (`src/unnamed/part_000` lines 103-105).  `store` is the value
held by the AsyncLocalStorage for the current logical flow (`none` when no
request context is active); only the pretty formatter reads it. -/
def emitRecord (h : LoggerHandle) (store : JSRes) (timestamp : String)
    (call : LogCall) : Emitted :=
  match h.formatMode with
  | .json => .structured (emitJson call)
  | .pretty => .text (emitPretty h.label store timestamp call)

/-! ### The variant factory `src/index.js` (lines 34-57) -/

/-- `env || "literal"` on an environment variable (an empty string is
falsy). -/
def envOr (v : Option String) (d : String) : String :=
  match v with
  | some s => if s = "" then d else s
  | none => d

/-- Whether the character list `needle` occurs contiguously in `hay`. -/
def substrB (needle hay : List Char) : Bool :=
  (List.range (hay.length + 1)).any fun i => (hay.drop i).take needle.length = needle

/-- The method call `v.includes(needle)` with a string argument (the code
passes only string literals): arrays test membership, strings test
substring occurrence, `null` throws reading the property, and every other
value throws because its `includes` is `undefined`, not a function. -/
def jsIncludes (v : JSVal) (needle : String) : Except JsError Bool :=
  match v with
  | .null => .error (.typeError "Cannot read properties of null (reading includes)")
  | .arr l => .ok (l.any fun e => match e with
      | .str t => t = needle
      | _ => false)
  | .str s => .ok (substrB needle.data s.data)
  | _ => .error (.typeError "transportNames.includes is not a function")

/-- Lines 37-57 of `src/index.js`: the two `includes` tests and the sinks
they push.  `transportNames` is the value
`JSON.parse(process.env.LOG_TRANSPORTS || '{}')` produced. -/
def indexTransports (logLevel svcName : String) (transportNames : JSVal) :
    Except JsError (List Sink) := do
  let daily ← jsIncludes transportNames "dailyRotateFile"
  let t1 : List Sink :=
    if daily then
      [.dailyRotateFile ("logs/" ++ svcName ++ "-%DATE%.log")
        (.str "YYYY-MM-DD") (.bool true) (.str "20m") (.str "30d") none]
    else []
  let staticF ← jsIncludes transportNames "staticFile"
  let t2 : List Sink :=
    if staticF then [.file "logs/log.txt" (some (.str logLevel)) none none]
    else []
  pure (t1 ++ t2)

/-- Module initialisation of `src/index.js`: `transportsEnv` is `none` when
the `LOG_TRANSPORTS` environment variable is absent or empty (the code then
parses the literal `'{}'`, whose outcome is the empty object), otherwise the
outcome of `JSON.parse` on its value; a parse failure is an uncaught
`SyntaxError` (the file has no `try`/`catch`). -/
def indexInitModule (transportsEnv : Option (Except String JSVal))
    (logLevel svcName : String) : Except JsError (List Sink) :=
  match transportsEnv with
  | none => indexTransports logLevel svcName (.obj [])
  | some (.error e) => .error (.syntaxError e)
  | some (.ok v) => indexTransports logLevel svcName v

/-! ## Helper lemmas -/

theorem dropWhile_append_all {p : Char → Bool} {l1 l2 : List Char}
    (h : ∀ c ∈ l1, p c = true) :
    (l1 ++ l2).dropWhile p = l2.dropWhile p := by
  induction l1 with
  | nil => rfl
  | cons a l ih =>
    simp only [List.cons_append, List.dropWhile_cons, h a (by simp)]
    exact ih fun c hc => h c (by simp [hc])

theorem takeWhile_of_all {p : Char → Bool} {l : List Char}
    (h : ∀ c ∈ l, p c = true) : l.takeWhile p = l := by
  induction l with
  | nil => rfl
  | cons a l ih =>
    simp only [List.takeWhile_cons, h a (by simp)]
    simp [ih fun c hc => h c (by simp [hc])]

theorem dropWhile_of_all {p : Char → Bool} {l : List Char}
    (h : ∀ c ∈ l, p c = true) : l.dropWhile p = [] := by
  induction l with
  | nil => rfl
  | cons a l ih =>
    simp only [List.dropWhile_cons, h a (by simp)]
    exact ih fun c hc => h c (by simp [hc])

theorem dropWhile_cons_false {p : Char → Bool} {c : Char} {l : List Char}
    (h : p c = false) : (c :: l).dropWhile p = c :: l := by
  simp [List.dropWhile_cons, h]

/-- Keyword casings of the masking pattern: the lower-cased characters spell
`password` or `token`. -/
def keywordCasing (kw : List Char) : Prop :=
  kw.map Char.toLower = "password".data ∨ kw.map Char.toLower = "token".data

theorem matchKeyword_front {kw rest : List Char} (hkw : keywordCasing kw) :
    matchKeyword (kw ++ rest) = some (kw, rest) := by
  rcases hkw with h | h
  · have hlen : kw.length = 8 := by
      have := congrArg List.length h
      simpa using this
    unfold matchKeyword
    rw [← hlen, List.take_left, List.drop_left, if_pos h]
  · have hlen : kw.length = 5 := by
      have := congrArg List.length h
      simpa using this
    obtain ⟨k0, kw1, rfl⟩ : ∃ k0 kw1, kw = k0 :: kw1 := by
      cases kw with
      | nil => simp at hlen
      | cons a l => exact ⟨a, l, rfl⟩
    have hk0 : k0.toLower = 't' := by
      simpa using congrArg (fun l => l.headD ' ') h
    have hfirst : ((k0 :: kw1 ++ rest).take 8).map Char.toLower ≠ "password".data := by
      intro hcon
      have : k0.toLower = 'p' := by
        simpa using congrArg (fun l => l.headD ' ') hcon
      rw [hk0] at this
      exact absurd this (by decide)
    unfold matchKeyword
    rw [if_neg hfirst, ← hlen, List.take_left, List.drop_left, if_pos h]

theorem matchTail_front {w1 w2 v : List Char} {d : Char}
    (hw1 : ∀ c ∈ w1, isJsSpace c = true) (hw2 : ∀ c ∈ w2, isJsSpace c = true)
    (hd : d = ':' ∨ d = '=')
    (hv : v ≠ []) (hvs : ∀ c ∈ v, isJsSpace c = false) :
    matchTail (w1 ++ d :: (w2 ++ v)) = some [] := by
  have hdns : isJsSpace d = false := by
    rcases hd with rfl | rfl <;> decide
  have hdrop1 : (w1 ++ d :: (w2 ++ v)).dropWhile isJsSpace = d :: (w2 ++ v) := by
    rw [dropWhile_append_all hw1, dropWhile_cons_false hdns]
  obtain ⟨v0, v1, rfl⟩ : ∃ v0 v1, v = v0 :: v1 := by
    cases v with
    | nil => exact absurd rfl hv
    | cons a l => exact ⟨a, l, rfl⟩
  have hdrop2 : (w2 ++ v0 :: v1).dropWhile isJsSpace = v0 :: v1 := by
    rw [dropWhile_append_all hw2, dropWhile_cons_false (hvs v0 (by simp))]
  have htake : (v0 :: v1).takeWhile (fun c => !isJsSpace c) = v0 :: v1 :=
    takeWhile_of_all fun c hc => by simp [hvs c hc]
  have hdrop3 : (v0 :: v1).dropWhile (fun c => !isJsSpace c) = [] :=
    dropWhile_of_all fun c hc => by simp [hvs c hc]
  have hdb : (d = ':' || d = '=') = true := by
    rcases hd with rfl | rfl <;> decide
  unfold matchTail
  rw [hdrop1]
  simp only [hdb, if_true]
  rw [hdrop2, htake, hdrop3]

theorem tryMask_front {kw w1 w2 v : List Char} {d : Char}
    (hkw : keywordCasing kw)
    (hw1 : ∀ c ∈ w1, isJsSpace c = true) (hw2 : ∀ c ∈ w2, isJsSpace c = true)
    (hd : d = ':' ∨ d = '=')
    (hv : v ≠ []) (hvs : ∀ c ∈ v, isJsSpace c = false) :
    tryMask (kw ++ w1 ++ d :: (w2 ++ v)) = some (kw, []) := by
  unfold tryMask
  rw [List.append_assoc, matchKeyword_front hkw]
  show Option.map (fun r => (kw, r)) (matchTail (w1 ++ d :: (w2 ++ v))) = some (kw, [])
  rw [matchTail_front hw1 hw2 hd hv hvs]
  rfl

theorem maskScanF_nil (fuel : Nat) : maskScanF fuel [] = [] := by
  cases fuel <;> rfl

theorem maskScanF_whole {fuel : Nat} {cs kw : List Char}
    (h : tryMask cs = some (kw, [])) :
    maskScanF (fuel + 1) cs = kw ++ ": ***".data := by
  simp [maskScanF, h, maskScanF_nil]

/-- A whole-message occurrence of the pattern is rewritten to
`keyword: ***`, keeping the keyword's casing. -/
theorem maskMessage_whole {kw w1 w2 v : List Char} {d : Char}
    (hkw : keywordCasing kw)
    (hw1 : ∀ c ∈ w1, isJsSpace c = true) (hw2 : ∀ c ∈ w2, isJsSpace c = true)
    (hd : d = ':' ∨ d = '=')
    (hv : v ≠ []) (hvs : ∀ c ∈ v, isJsSpace c = false) :
    maskMessage ⟨kw ++ w1 ++ d :: (w2 ++ v)⟩ = ⟨kw ++ ": ***".data⟩ := by
  have hkwne : kw ≠ [] := by
    rcases hkw with h | h <;>
      · intro hnil
        rw [hnil] at h
        simp at h
  obtain ⟨k0, kw1, rfl⟩ : ∃ k0 kw1, kw = k0 :: kw1 := by
    cases kw with
    | nil => exact absurd rfl hkwne
    | cons a l => exact ⟨a, l, rfl⟩
  show String.mk (maskScan _) = _
  unfold maskScan
  simp only [List.cons_append, List.length_cons]
  rw [maskScanF_whole (by simpa using tryMask_front hkw hw1 hw2 hd hv hvs)]
  rfl

theorem emitRecord_pretty (h : LoggerHandle) (hf : h.formatMode = .pretty)
    (store : JSRes) (ts : String) (call : LogCall) :
    emitRecord h store ts call = .text (emitPretty h.label store ts call) := by
  unfold emitRecord
  rw [hf]

theorem emitRecord_json (h : LoggerHandle) (hf : h.formatMode = .json)
    (store : JSRes) (ts : String) (call : LogCall) :
    emitRecord h store ts call = .structured (emitJson call) := by
  unfold emitRecord
  rw [hf]

/-- `levels.default` is absent from a config object: either no `levels`
field, or a `levels` value without an own `default` property (a non-object
`levels` value has no own properties at all). -/
def levelsDefaultAbsent (fs : List (String × JSVal)) : Prop :=
  match lookupField fs "levels" with
  | none => True
  | some (.obj gs) => lookupField gs "default" = none
  | some _ => True

/-- Values a `for ... of` statement rejects (everything except arrays and
strings among JSON values). -/
def nonIterable (v : JSVal) : Bool :=
  match v with
  | .arr _ => false
  | .str _ => false
  | _ => true

/-- JSON values carrying an `includes` method (arrays and strings). -/
def hasIncludes (v : JSVal) : Bool :=
  match v with
  | .arr _ => true
  | .str _ => true
  | _ => false

/-! ## The claims -/

/-- **C1.** For every config string that is not valid JSON (every `JSON.parse`
failure), configuration loading emits a warning to standard error,
substitutes the all-defaults configuration, and does not raise; and
`createLogger` called afterwards returns a handle whose effective level is
`"info"` and whose attached transport list contains only a console sink.
(The label is kept away from the `Object.prototype` member names, which the
own-property model `getF` does not cover.) -/
theorem c1_malformed_config_defaults (e label : String)
    (hl : label ∉ objectProtoKeys) :
    ∃ st : ModuleState,
      initModule (.error e) = .ok st ∧
      st.configWarned = true ∧
      st.defaultLevel = .str "info" ∧
      st.configuredTransports = [] ∧
      (createLogger st st.nextId label).2.level = .str "info" ∧
      (createLogger st st.nextId label).2.transports =
        [(st.nextId, .console (.str "info"))] :=
  ⟨_, rfl, rfl, rfl, rfl, rfl, rfl⟩

/-- Witness for C1 at the parse failure of `"not json"` and the label
`"app"`. -/
theorem c1_witness :
    ∃ st : ModuleState,
      initModule (.error "Unexpected token") = .ok st ∧
      st.configWarned = true ∧
      st.defaultLevel = .str "info" ∧
      st.configuredTransports = [] ∧
      (createLogger st st.nextId "app").2.level = .str "info" ∧
      (createLogger st st.nextId "app").2.transports =
        [(st.nextId, .console (.str "info"))] :=
  c1_malformed_config_defaults "Unexpected token" "app" (by decide)

/-- **C2 fails as stated**: with
`LOGGER_CONFIG = {"levels": {"default": "warn", "mod": ""}}` the label
`"mod"` is present in `levelOverrides` with the override `""`, yet the
handle's effective level is `"warn"` (the `defaultLevel`), not the
override: `levelOverrides[fileName] || defaultLevel` discards a falsy
override. -/
theorem c2_counterexample :
    ∃ st : ModuleState,
      initModule (.ok (.obj [("levels",
        .obj [("default", .str "warn"), ("mod", .str "")])])) = .ok st ∧
      getF st.levelOverrides "mod" = some (.str "") ∧
      (createLogger st st.nextId "mod").2.level = .str "warn" ∧
      JSVal.str "warn" ≠ JSVal.str "" :=
  ⟨_, rfl, rfl, rfl, by simp⟩

/-- **C2 amended.** The returned handle's effective level equals
`levelOverrides[label]` when the label is present with a truthy value
(independent of `defaultLevel`), and equals `defaultLevel` otherwise — both
when the label is absent and when its override value is falsy (such as the
empty string). -/
theorem c2_effective_level (st : ModuleState) (label : String) (nid : Nat)
    (hl : label ∉ objectProtoKeys) :
    (∀ v, getF st.levelOverrides label = some v → truthy v = true →
      (createLogger st nid label).2.level = v) ∧
    (∀ v, getF st.levelOverrides label = some v → truthy v = false →
      (createLogger st nid label).2.level = st.defaultLevel) ∧
    (getF st.levelOverrides label = none →
      (createLogger st nid label).2.level = st.defaultLevel) := by
  refine ⟨?_, ?_, ?_⟩
  · intro v hv ht
    show jsOrV (getF st.levelOverrides label) st.defaultLevel = v
    rw [hv]
    simp [jsOrV, ht]
  · intro v hv ht
    show jsOrV (getF st.levelOverrides label) st.defaultLevel = st.defaultLevel
    rw [hv]
    simp [jsOrV, ht]
  · intro hv
    show jsOrV (getF st.levelOverrides label) st.defaultLevel = st.defaultLevel
    rw [hv]
    rfl

/-- Witness for C2 (amended) on a state with the override
`{"mod": "debug"}` over default `"warn"`. -/
theorem c2_witness :
    (createLogger
      { defaultLevel := .str "warn", globalFormat := .pretty,
        levelOverrides := .obj [("mod", .str "debug")],
        configuredTransports := [], nextId := 0, warnings := [],
        configWarned := false } 0 "mod").2.level = .str "debug" :=
  (c2_effective_level _ "mod" 0 (by decide)).1 (.str "debug") rfl rfl

/-- **C3.** In pretty mode, a textual message consisting of an occurrence of
the pattern — `password` or `token` in any casing, optional whitespace, `:`
or `=`, optional whitespace, then a nonempty non-whitespace run — is
rewritten to `keyword: ***` with the keyword's original casing preserved;
and on the spec's concrete examples the replace behaves as stated, also for
occurrences strictly inside a longer message and for several occurrences. -/
theorem c3_pretty_masking (kw w1 w2 v : List Char) (d : Char)
    (hkw : keywordCasing kw)
    (hw1 : ∀ c ∈ w1, isJsSpace c = true) (hw2 : ∀ c ∈ w2, isJsSpace c = true)
    (hd : d = ':' ∨ d = '=')
    (hv : v ≠ []) (hvs : ∀ c ∈ v, isJsSpace c = false) :
    maskMessage ⟨kw ++ w1 ++ d :: (w2 ++ v)⟩ = ⟨kw ++ ": ***".data⟩ ∧
    maskMessage "password: secret123" = "password: ***" ∧
    maskMessage "token=abcXYZ" = "token: ***" ∧
    maskMessage "my password field" = "my password field" ∧
    maskMessage "user PASSWORD:  hunter2 tail" = "user PASSWORD: *** tail" ∧
    maskMessage "a token = x and Token=y" = "a token: *** and Token: ***" :=
  ⟨maskMessage_whole hkw hw1 hw2 hd hv hvs,
   by decide, by decide, by decide, by decide, by decide⟩

/-- Witness for C3 at the casing `PassWord`, the delimiter `:` and the
value `s3cret`. -/
theorem c3_witness :
    maskMessage ⟨"PassWord".data ++ [] ++ ':' :: ([' '] ++ "s3cret".data)⟩ =
      ⟨"PassWord".data ++ ": ***".data⟩ :=
  (c3_pretty_masking "PassWord".data [] [' '] "s3cret".data ':'
    (Or.inl (by decide)) (by decide) (by decide) (Or.inl (by decide))
    (by decide) (by decide)).1

/-- **C4 fails as stated**: with `LOGGER_CONFIG = {"format": "json"}` and an
active request context `{requestId: "r1"}`, a json-mode emission produces
the structured fields `level` and `message` only — no `requestId` field at
all — while pretty mode would render `[r1]` from the same context: the json
pipeline is `winston.format.json()` alone and never reads the
AsyncLocalStorage store. -/
theorem c4_counterexample :
    ∃ st : ModuleState,
      initModule (.ok (.obj [("format", .str "json")])) = .ok st ∧
      emitRecord (createLogger st st.nextId "app").2
        (some (.obj [("requestId", .str "r1")])) "TS"
        ⟨"info", .str "hello", [], []⟩ =
        .structured [("level", .str "info"), ("message", .str "hello")] ∧
      lookupField [("level", .str "info"), ("message", .str "hello")]
        "requestId" = none ∧
      emitPretty "app" (some (.obj [("requestId", .str "r1")])) "TS"
        ⟨"info", .str "hello", [], []⟩ = "TS [INFO] [r1] [app] - hello" :=
  ⟨_, rfl, rfl, rfl, by decide⟩

/-- **C4 amended.** When the configured format mode is `"json"`, no log
emission routes through the pretty-mode masking or the correlation-id
bracket logic: the output is the structured encoder's own field set
(severity, message, caller-supplied metadata), it is independent of the
active request context and of the timestamp, the message field is the raw
unmasked message, and a `requestId` field is present exactly when the
caller passed one in the metadata — the active request context never
contributes it. -/
theorem c4_json_mode (st : ModuleState) (h : st.globalFormat = .json)
    (nid : Nat) (label ts : String) (store : JSRes) (call : LogCall) :
    emitRecord (createLogger st nid label).2 store ts call =
      .structured (emitJson call) ∧
    (∀ store2 ts2, emitRecord (createLogger st nid label).2 store ts call =
      emitRecord (createLogger st nid label).2 store2 ts2 call) ∧
    (∀ s, call.message = .str s →
      lookupField (emitJson call) "message" = some (.str s)) ∧
    lookupField (emitJson call) "requestId" = lookupField call.meta "requestId" := by
  have hf : (createLogger st nid label).2.formatMode = FormatMode.json := h
  refine ⟨emitRecord_json _ hf store ts call, ?_, ?_, ?_⟩
  · intro store2 ts2
    rw [emitRecord_json _ hf store ts call, emitRecord_json _ hf store2 ts2 call]
  · intro s hs
    simp [emitJson, lookupField, hs]
  · simp [emitJson, lookupField]

/-- Witness for C4 (amended) at a concrete json-mode state, context and
call. -/
theorem c4_witness :
    emitRecord (createLogger
      { defaultLevel := .str "info", globalFormat := .json,
        levelOverrides := .obj [], configuredTransports := [], nextId := 0,
        warnings := [], configWarned := false } 0 "app").2
      (some (.obj [("requestId", .str "r1")])) "TS"
      ⟨"info", .str "password: x", [], []⟩ =
      .structured (emitJson ⟨"info", .str "password: x", [], []⟩) :=
  (c4_json_mode _ rfl 0 "app" "TS" (some (.obj [("requestId", .str "r1")]))
    ⟨"info", .str "password: x", [], []⟩).1

/-- **C5.** In pretty mode, every log call made while a request context
`{requestId: "r1"}` is active renders a line containing `[r1]`; and every
log call made with no active request context renders exactly the line with
the correlation-id part omitted entirely (no bracket pair for the id, empty
or otherwise, between the level brackets and the label brackets). -/
theorem c5_request_id_brackets (st : ModuleState) (h : st.globalFormat = .pretty)
    (nid : Nat) (label ts : String) (call : LogCall) :
    (∃ l1 l2, emitRecord (createLogger st nid label).2
        (some (.obj [("requestId", .str "r1")])) ts call =
        .text (l1 ++ "[r1]" ++ l2)) ∧
    emitRecord (createLogger st nid label).2 none ts call =
      .text (ts ++ " [" ++ toUpperJS call.level ++ "] [" ++ label ++ "] - " ++
        utilFormat (match call.message with
          | .str s => .str (maskMessage s)
          | v => v) (call.splat.map inspectJS)) := by
  have hf : (createLogger st nid label).2.formatMode = FormatMode.pretty := h
  constructor
  · refine ⟨ts ++ " [" ++ toUpperJS call.level ++ "] ",
          " [" ++ label ++ "] - " ++
            utilFormat (match call.message with
              | .str s => .str (maskMessage s)
              | v => v) (call.splat.map inspectJS), ?_⟩
    rw [emitRecord_pretty _ hf]
    congr 1
    apply String.ext
    simp [emitPretty, createLogger, utilFormat, optChain, getF, lookupField,
      truthyR, truthy, displayRes, displayJS, String.data_append,
      show " [".data = [' ', '['] from rfl,
      show "] ".data = [']', ' '] from rfl,
      show "[".data = ['['] from rfl,
      show "r1".data = ['r', '1'] from rfl,
      show "[r1]".data = ['[', 'r', '1', ']'] from rfl,
      show "] - ".data = [']', ' ', '-', ' '] from rfl]
  · rw [emitRecord_pretty _ hf]
    congr 1
    apply String.ext
    simp [emitPretty, createLogger, utilFormat, optChain, getF, lookupField,
      truthyR, truthy, displayRes, displayJS, String.data_append,
      show " [".data = [' ', '['] from rfl,
      show "] ".data = [']', ' '] from rfl,
      show "[".data = ['['] from rfl,
      show "] [".data = [']', ' ', '['] from rfl,
      show "] - ".data = [']', ' ', '-', ' '] from rfl]

/-- Witness for C5 at a concrete pretty-mode state and call. -/
theorem c5_witness :
    (∃ l1 l2, emitRecord (createLogger
      { defaultLevel := .str "info", globalFormat := .pretty,
        levelOverrides := .obj [], configuredTransports := [], nextId := 0,
        warnings := [], configWarned := false } 0 "auth.js").2
        (some (.obj [("requestId", .str "r1")])) "TS"
        ⟨"info", .str "hello", [], []⟩ = .text (l1 ++ "[r1]" ++ l2)) ∧
    emitRecord (createLogger
      { defaultLevel := .str "info", globalFormat := .pretty,
        levelOverrides := .obj [], configuredTransports := [], nextId := 0,
        warnings := [], configWarned := false } 0 "auth.js").2 none "TS"
      ⟨"info", .str "hello", [], []⟩ =
      .text ("TS" ++ " [" ++ toUpperJS "info" ++ "] [" ++ "auth.js" ++ "] - " ++
        utilFormat (match JSVal.str "hello" with
          | .str s => .str (maskMessage s)
          | v => v) (List.map inspectJS [])) :=
  c5_request_id_brackets _ rfl 0 "auth.js" "TS" ⟨"info", .str "hello", [], []⟩

/-- **C6 fails as stated**: with the empty configuration, the first
`createLogger` call constructs an exception-handling `File` sink on
`logs/exceptions.log` (construction identifier 1) and a second call
constructs another one (identifier 3) over the very same file — each call
runs `new winston.transports.File({filename: .../exceptions.log})`, so
subsequent logger creations do duplicate a file handle. -/
theorem c6_counterexample :
    ∃ st : ModuleState,
      initModule (.ok (.obj [])) = .ok st ∧
      (createLogger st st.nextId "a").2.exceptionHandlers =
        [(1, .file "logs/exceptions.log" none none none)] ∧
      (createLogger st (createLogger st st.nextId "a").1 "b").2.exceptionHandlers =
        [(3, .file "logs/exceptions.log" none none none)] ∧
      (1 : Nat) ≠ 3 :=
  ⟨_, rfl, rfl, rfl, by decide⟩

/-- **C6 amended.** Sink construction from the configuration happens exactly
once, at module initialisation: every `createLogger` call attaches the
shared configured sink list by reference (the same sinks with the same
construction identifiers, for every call and label) and builds nothing from
the configuration; but each call does construct two fresh transports of its
own — a console sink and an exception-handling file sink on
`logs/exceptions.log` — advancing the construction counter by exactly 2. -/
theorem c6_shared_sinks (st : ModuleState) (nid : Nat) (label label2 : String) :
    (createLogger st nid label).2.transports =
      (nid, .console (createLogger st nid label).2.level) ::
        st.configuredTransports ∧
    (createLogger st (createLogger st nid label).1 label2).2.transports.tail =
      st.configuredTransports ∧
    (createLogger st nid label).2.exceptionHandlers =
      [(nid + 1, .file "logs/exceptions.log" none none none)] ∧
    (createLogger st nid label).1 = nid + 2 :=
  ⟨rfl, rfl, rfl, rfl⟩

/-- **C7.** For every syntactically valid JSON config object, each missing
field is substituted by its named default: the default level is `"info"`
when `levels.default` is absent, the format mode is `pretty` when `format`
is absent, and the built transport list is empty (and initialisation
succeeds) when `transports` is absent. -/
theorem c7_named_defaults (fs : List (String × JSVal)) :
    (levelsDefaultAbsent fs → defaultLevelOf (.obj fs) = .ok (.str "info")) ∧
    (lookupField fs "format" = none → globalFormatOf (.obj fs) = .ok .pretty) ∧
    (lookupField fs "transports" = none →
      ∃ st, initModule (.ok (.obj fs)) = .ok st ∧
        st.configuredTransports = []) := by
  refine ⟨?_, ?_, ?_⟩
  · intro h
    unfold defaultLevelOf
    show Except.ok (jsOrV (optChain (lookupField fs "levels") "default") (.str "info")) = _
    unfold levelsDefaultAbsent at h
    cases hl : lookupField fs "levels" with
    | none => rfl
    | some v =>
      rw [hl] at h
      cases v with
      | null => rfl
      | bool b => rfl
      | num n => rfl
      | str s => rfl
      | arr l => rfl
      | obj gs => simp [optChain, getF, h, jsOrV]
  · intro h
    simp only [globalFormatOf, jsGet, getF, h, bind, Except.bind, pure, Except.pure]
  · intro h
    refine ⟨{ defaultLevel := jsOrV (optChain (lookupField fs "levels") "default") (.str "info")
              globalFormat := match lookupField fs "format" with
                | some (.str s) => if s = "json" then .json else .pretty
                | _ => .pretty
              levelOverrides := jsOrV (lookupField fs "levels") (.obj [])
              configuredTransports := []
              nextId := 0
              warnings := []
              configWarned := false }, ?_, rfl⟩
    simp only [initModule, loadLoggerConfig, defaultLevelOf, globalFormatOf,
      levelOverridesOf, jsGet, getF, h, jsOrV, buildTransports, iterateJS,
      bind, Except.bind, pure, Except.pure, Functor.map, Except.map, List.foldlM]
    rfl

/-- Witness for C7 at the empty config object. -/
theorem c7_witness :
    defaultLevelOf (.obj []) = .ok (.str "info") ∧
    globalFormatOf (.obj []) = .ok .pretty ∧
    ∃ st, initModule (.ok (.obj [])) = .ok st ∧
      st.configuredTransports = [] :=
  ⟨(c7_named_defaults []).1 trivial,
   (c7_named_defaults []).2.1 rfl,
   (c7_named_defaults []).2.2 rfl⟩

/-- **C8.** For every transport descriptor object whose kind tag (`type`) is
not one of `daily`, `static`, `file`, `http`, the transport builder skips
the descriptor (no sink is built, the construction counter does not move),
emits the unknown-type warning, does not raise, and continues building the
remaining descriptors from the unchanged accumulator. -/
theorem c8_unknown_kind_skipped (dl : JSVal) (acc : BuildAcc)
    (fs : List (String × JSVal))
    (h : ∀ s, lookupField fs "type" = some (.str s) →
        s ∉ ["daily", "static", "file", "http"]) :
    buildStep dl acc (.obj fs) =
      .ok { acc with warnings :=
        acc.warnings ++ [unknownWarning (lookupField fs "type")] } ∧
    ∀ rest, (JSVal.obj fs :: rest).foldlM (buildStep dl) acc =
      rest.foldlM (buildStep dl)
        { acc with warnings :=
          acc.warnings ++ [unknownWarning (lookupField fs "type")] } := by
  have hstep : buildStep dl acc (.obj fs) =
      .ok { acc with warnings :=
        acc.warnings ++ [unknownWarning (lookupField fs "type")] } := by
    unfold buildStep
    cases hl : lookupField fs "type" with
    | none => simp [getF, hl, unknownWarning, pure, Except.pure]
    | some v =>
      cases v with
      | str s =>
        have hs := h s hl
        simp only [List.mem_cons, List.mem_singleton, not_or] at hs
        obtain ⟨h1, h2, h3, h4⟩ := by simpa using hs
        simp [getF, hl, h1, h2, h3, h4, unknownWarning, pure, Except.pure]
      | null => simp [getF, hl, unknownWarning, pure, Except.pure]
      | bool b => simp [getF, hl, unknownWarning, pure, Except.pure]
      | num n => simp [getF, hl, unknownWarning, pure, Except.pure]
      | arr l => simp [getF, hl, unknownWarning, pure, Except.pure]
      | obj gs => simp [getF, hl, unknownWarning, pure, Except.pure]
  refine ⟨hstep, ?_⟩
  intro rest
  simp [List.foldlM, hstep, bind, Except.bind]

/-- Witness for C8 at the descriptor `{type: "smtp"}`. -/
theorem c8_witness :
    buildStep (.str "info") ⟨0, [], []⟩ (.obj [("type", .str "smtp")]) =
      .ok { nextId := 0, sinks := [], warnings :=
        [] ++ [unknownWarning (lookupField [("type", JSVal.str "smtp")] "type")] } :=
  (c8_unknown_kind_skipped (.str "info") ⟨0, [], []⟩
    [("type", .str "smtp")]
    (by
      intro s hs
      simp only [lookupField, if_true, reduceIte, Option.some.injEq,
        JSVal.str.injEq] at hs
      subst hs
      decide)).1

/-- **C9 fails as stated**: `{"transports": 0}` is a syntactically valid
JSON object whose `transports` field is a non-iterable value (a number),
yet module initialisation succeeds instead of raising — `0` is falsy, so
`loggerConfig.transports || []` replaces it with `[]` before the `for ... of`
ever runs. -/
theorem c9_counterexample :
    nonIterable (.num 0) = true ∧
    ∃ st : ModuleState,
      initModule (.ok (.obj [("transports", .num 0)])) = .ok st :=
  ⟨rfl, _, rfl⟩

/-- **C9 amended.** There are syntactically valid JSON values of
`LOGGER_CONFIG` for which module initialisation raises a `TypeError`
instead of falling back to defaults: the string `"null"` (reading `.levels`
on `null`), and any object whose `transports` field is a truthy
non-iterable value — such as a nonzero number, `true`, or an object — for
which the `for ... of` throws. -/
theorem c9_config_type_error (v : JSVal) (h1 : truthy v = true)
    (h2 : nonIterable v = true) :
    (∃ m, initModule (.ok .null) = .error (.typeError m)) ∧
    (∃ m, initModule (.ok (.obj [("transports", v)])) = .error (.typeError m)) := by
  refine ⟨⟨_, rfl⟩, ?_⟩
  cases v with
  | null => simp [truthy] at h1
  | bool b =>
    cases b with
    | false => simp [truthy] at h1
    | true => exact ⟨_, rfl⟩
  | num n =>
    refine ⟨displayJS (.num n) ++ " is not iterable", ?_⟩
    simp only [truthy] at h1
    simp [initModule, loadLoggerConfig, defaultLevelOf, globalFormatOf,
      levelOverridesOf, buildTransports, jsGet, getF, lookupField, optChain,
      jsOrV, truthy, h1, iterateJS,
      bind, Except.bind, pure, Except.pure, Functor.map, Except.map]
  | str s => simp [nonIterable] at h2
  | arr l => simp [nonIterable] at h2
  | obj gs => exact ⟨_, rfl⟩

/-- Witness for C9 (amended) at `transports: 5`. -/
theorem c9_witness :
    (∃ m, initModule (.ok .null) = .error (.typeError m)) ∧
    (∃ m, initModule (.ok (.obj [("transports", .num 5)])) =
      .error (.typeError m)) :=
  c9_config_type_error (.num 5) (by decide) (by decide)

/-- **C10.** In the variant `src/index.js`, whenever the `LOG_TRANSPORTS`
environment variable is absent — the parsed default `'{}'` is then a plain
object — or holds any JSON value without an `includes` method (anything
other than an array or a string), module initialisation raises a
`TypeError`, because `transportNames.includes` is not callable. -/
theorem c10_index_includes_type_error (logLevel svcName : String) (v : JSVal)
    (h : hasIncludes v = false) :
    (∃ m, indexInitModule none logLevel svcName = .error (.typeError m)) ∧
    (∃ m, indexInitModule (some (.ok v)) logLevel svcName =
      .error (.typeError m)) := by
  refine ⟨⟨_, rfl⟩, ?_⟩
  cases v with
  | null => exact ⟨_, rfl⟩
  | bool b => exact ⟨_, rfl⟩
  | num n => exact ⟨_, rfl⟩
  | str s => simp [hasIncludes] at h
  | arr l => simp [hasIncludes] at h
  | obj gs => exact ⟨_, rfl⟩

/-- Witness for C10 at the value `3`. -/
theorem c10_witness :
    (∃ m, indexInitModule none "info" "svc" = .error (.typeError m)) ∧
    (∃ m, indexInitModule (some (.ok (.num 3))) "info" "svc" =
      .error (.typeError m)) :=
  c10_index_includes_type_error "info" "svc" (.num 3) (by decide)

end LoggerSpec
